import Mathlib

/-!
Shallow embedding of the visual similarity engine of
`src/test_visual_similarity.py` (class `VisualSimilarityAnalyzer`).

Numpy/torch float arithmetic is idealized over the reals; machine floats
are modeled as exact real numbers.  Python dicts become association lists
(first match wins, insertion = prepend), external numeric routines
(SIFT keypoint detection, CNN backbones, MiniBatchKMeans fitting) become
oracle inputs, and the pure numeric post-processing that the source
performs on their outputs is translated literally.
-/

namespace VisualSim

/-- Feature vectors (numpy float arrays) modeled as lists of reals. -/
abbrev Vec := List ℝ

/-- Rational-valued vectors, used for data (descriptors, histograms) on which
the source performs only field operations. -/
abbrev QVec := List ℚ

/-- Cast a rational vector to a real vector. -/
noncomputable def castVec (v : QVec) : Vec := v.map (fun q => (Rat.cast q : ℝ))

/-- Inner product of two vectors, `np.dot` on 1-D arrays
(also the row scores of `faiss.IndexFlatIP`). -/
def dotl (a b : Vec) : ℝ := (List.zipWith (fun x y => x * y) a b).sum

/-- Sum of squares of the entries of a vector. -/
def sumSq (a : Vec) : ℝ := dotl a a

/-- Euclidean norm, `np.linalg.norm`. -/
noncomputable def l2norm (a : Vec) : ℝ := Real.sqrt (sumSq a)

/-- Feature-type fusion weights of the engine, `self.weights`
(source lines 66-71).  The literals 0.35/0.25/0.25/0.15 are exact. -/
structure Weights where
  sift : ℚ
  vgg16 : ℚ
  densenet121 : ℚ
  googlenet : ℚ
deriving DecidableEq, Repr

/-- The weight assigned to a feature-type name, `self.weights[ft]`. -/
def wOf (w : Weights) (ft : String) : ℚ :=
  if ft = "sift" then w.sift
  else if ft = "vgg16" then w.vgg16
  else if ft = "densenet121" then w.densenet121
  else w.googlenet

/-- The weights installed by `VisualSimilarityAnalyzer.__init__`. -/
def defaultWeights : Weights :=
  { sift := 35/100, vgg16 := 25/100, densenet121 := 25/100, googlenet := 15/100 }

/-- The fixed iteration order of feature types used throughout the source
(`['sift', 'vgg16', 'densenet121', 'googlenet']`). -/
def featureTypes : List String := ["sift", "vgg16", "densenet121", "googlenet"]

/-- Per-image feature mapping: the dict
`{'sift': ..., 'vgg16': ..., 'densenet121': ..., 'googlenet': ...}`
built at source lines 559-564. -/
structure FeatureBundle where
  sift : Vec
  vgg16 : Vec
  densenet121 : Vec
  googlenet : Vec

/-- Dict access `features[feature_type]` on a feature bundle. -/
def getFeature (b : FeatureBundle) (ft : String) : Vec :=
  if ft = "sift" then b.sift
  else if ft = "vgg16" then b.vgg16
  else if ft = "densenet121" then b.densenet121
  else if ft = "googlenet" then b.googlenet
  else []

/-- One per-folder per-feature-type FAISS entry
`{'index': faiss.IndexFlatIP, 'image_paths': [...]}`:
the flat index is its list of stored rows. -/
structure IndexData where
  vectors : List Vec
  imagePaths : List String

/-- BoVW vocabulary: a fitted `MiniBatchKMeans` object, i.e. its cluster
centroids (the fitting itself is an external numeric routine). -/
structure Vocab where
  centroids : List QVec

/-- The mutable state of a `VisualSimilarityAnalyzer` instance: the fields
assigned in `__init__` (lines 66-85) and mutated by the methods below. -/
structure AnalyzerState where
  bovwClusters : ℕ
  bovwKmeans : Option Vocab
  folderIndexes : List (String × List (String × IndexData))
  folderImagePaths : List (String × List String)
  folderFeatures : List (String × List (String × FeatureBundle))
  featuresCache : List (String × FeatureBundle)
  weights : Weights

/-- State of a freshly constructed analyzer (`__init__`): empty caches,
256 BoVW clusters, no vocabulary, default weights. -/
def initialState : AnalyzerState :=
  { bovwClusters := 256
    bovwKmeans := none
    folderIndexes := []
    folderImagePaths := []
    folderFeatures := []
    featuresCache := []
    weights := defaultWeights }

/-- Normalization used by `calculate_visual_similarity_optimized`:
`f / (np.linalg.norm(f) + 1e-8)` (source lines 723-724). -/
noncomputable def unitizeEps (v : Vec) : Vec :=
  v.map (fun x => x / (l2norm v + 1 / 10 ^ 8))

/-- Model of `calculate_visual_similarity_optimized` (source lines 706-732):
looks both images up in `self.features_cache`; if either is missing it
returns `(0.0, {})`; otherwise it computes, per feature type, the cosine
similarity of the eps-normalized vectors, clips at 0 and scales by 100, and
fuses the per-type scores with `self.weights`. -/
noncomputable def calculate_visual_similarity_optimized
    (st : AnalyzerState) (p1 p2 : String) : ℝ × List (String × ℝ) :=
  match List.lookup p1 st.featuresCache, List.lookup p2 st.featuresCache with
  | some f1, some f2 =>
    let sims := featureTypes.map fun ft =>
      (ft, max 0 (dotl (unitizeEps (getFeature f1 ft)) (unitizeEps (getFeature f2 ft)) * 100))
    ((sims.map fun pr => pr.2 * ((wOf st.weights pr.1 : ℚ) : ℝ)).sum, sims)
  | _, _ => (0, [])

/-- Inputs to the pure numeric part of `_extract_improved_sift_features`
(source lines 219-324): the final keypoint-descriptor set produced by the
OpenCV detection/fallback chain (empty when even the blurred retry found
nothing), the detector response strengths aligned with the descriptors, the
256-bin grayscale intensity histogram of the image, and whether the content
analysis classified the image as poor quality. -/
structure SiftInput where
  descriptors : List QVec
  responses : List ℚ
  grayHist : QVec
  qualityPoor : Bool

/-- Pad with zeros up to `clusters` entries, or truncate down to `clusters`
entries (source lines 269-272 and 307-310). -/
def padTrunc (clusters : ℕ) (v : QVec) : QVec :=
  if v.length < clusters then v ++ List.replicate (clusters - v.length) 0
  else v.take clusters

/-- Grayscale-histogram pseudo-descriptor used when no keypoints are found
(source lines 266-279): pad/truncate the histogram to `clusters` bins, then
divide by its sum when positive, else use the uniform vector. -/
def hist_fallback (clusters : ℕ) (hist : QVec) : QVec :=
  if 0 < (padTrunc clusters hist).sum then
    (padTrunc clusters hist).map (fun x => x / (padTrunc clusters hist).sum)
  else List.replicate clusters ((1 : ℚ) / clusters)

/-- Descriptor cap (source lines 282-285): when more than 300 descriptors
were detected, keep the 300 with the largest response
(`np.argsort(responses)[-300:]`). -/
def cap300 (descs : List QVec) (responses : List ℚ) : List QVec :=
  if 300 < descs.length then
    let order := (responses.enum.mergeSort (fun a b => decide (a.2 ≤ b.2))).map Prod.fst
    (order.drop (order.length - 300)).map (fun i => descs.getD i [])
  else descs

/-- Squared euclidean distance between two rational vectors. -/
def distSq (a b : QVec) : ℚ := (List.zipWith (fun x y => (x - y) * (x - y)) a b).sum

/-- `MiniBatchKMeans.predict` on one descriptor: the index of the nearest
centroid. -/
def predictLabel (voc : Vocab) (d : QVec) : ℕ :=
  (voc.centroids.enum.foldl
    (fun best c => if distSq d c.2 < best.2 then (c.1, distSq d c.2) else best)
    (0, distSq d (voc.centroids.headD []))).1

/-- `np.histogram(labels, bins=range(clusters + 1))`: assignment counts per
cluster (labels produced by `predict` are always below the cluster count). -/
def labelHistogram (clusters : ℕ) (labels : List ℕ) : QVec :=
  (List.range clusters).map (fun i => (labels.count i : ℚ))

/-- BoVW encoding branch of the SIFT extractor (source lines 288-301):
histogram of nearest-centroid assignments, divided by its sum when positive
(then scaled by 0.9 for poor-quality content), else uniform. -/
def bovw_encode (voc : Vocab) (clusters : ℕ) (descs : List QVec) (poor : Bool) : QVec :=
  let labels := descs.map (predictLabel voc)
  let hist := labelHistogram clusters labels
  if 0 < hist.sum then
    let h := hist.map (fun x => x / hist.sum)
    if poor then h.map (fun x => x * (9 / 10)) else h
  else List.replicate clusters ((1 : ℚ) / clusters)

/-- Column-wise mean of a descriptor set, `np.mean(descriptors, axis=0)`
(all SIFT descriptors share one dimensionality, read off the first row). -/
def descriptorColumnMean (descs : List QVec) : QVec :=
  (List.range (descs.headD []).length).map
    (fun i => (descs.map (fun d => d.getD i 0)).sum / (descs.length : ℚ))

/-- Descriptor-mean fallback of the SIFT extractor (source lines 305-320):
pad/truncate the descriptor mean to `clusters` entries, L2-normalize it
(scaled by 0.95 for poor-quality content), or use `ones/sqrt(clusters)` when
the mean vector is zero. -/
noncomputable def descriptor_mean_fallback (clusters : ℕ) (descs : List QVec)
    (poor : Bool) : Vec :=
  let fv := castVec (padTrunc clusters (descriptorColumnMean descs))
  let n := l2norm fv
  if 0 < n then
    let u := fv.map (fun x => x / n)
    if poor then u.map (fun x => x * (95 / 100)) else u
  else List.replicate clusters ((1 : ℝ) / Real.sqrt clusters)

/-- Numeric core of `_extract_improved_sift_features` (source lines 219-324),
after the OpenCV detection attempts summarized in `SiftInput`: with no
descriptors, the grayscale-histogram pseudo-descriptor; otherwise the
descriptors are capped at 300 by response and encoded through the BoVW
vocabulary when one is loaded, falling back to the normalized descriptor
mean when the vocabulary is absent. -/
noncomputable def _extract_improved_sift_features (bovw : Option Vocab)
    (clusters : ℕ) (inp : SiftInput) : Vec :=
  if inp.descriptors.isEmpty then castVec (hist_fallback clusters inp.grayHist)
  else
    let descs := cap300 inp.descriptors inp.responses
    match bovw with
    | some voc => castVec (bovw_encode voc clusters descs inp.qualityPoor)
    | none => descriptor_mean_fallback clusters descs inp.qualityPoor

/-- `torch.nn.functional.normalize(features, p=2, dim=1)` applied to one row:
divide by the L2 norm clamped below by 1e-12. -/
noncomputable def torch_normalize (v : Vec) : Vec :=
  v.map (fun x => x / max (l2norm v) (1 / 10 ^ 12))

/-- Final step of `_extract_vgg_batch` (source lines 385-391) on one image:
the raw penultimate activation vector (the convolution/classifier layers are
an external pretrained network) is L2-normalized. -/
noncomputable def _extract_vgg_batch (raw : Vec) : Vec := torch_normalize raw

/-- Final step of `_extract_densenet_batch` (source lines 393-399). -/
noncomputable def _extract_densenet_batch (raw : Vec) : Vec := torch_normalize raw

/-- Final step of `_extract_googlenet_batch` (source lines 401-406). -/
noncomputable def _extract_googlenet_batch (raw : Vec) : Vec := torch_normalize raw

/-- `faiss.IndexFlatIP.search(q, k)`: inner-product scores of the query
against every stored row with the row indices, padded with index -1 entries
when `k` exceeds the number of rows.  FAISS orders the pairs by decreasing
score; the callers below accumulate them into per-image dictionaries, so the
order is irrelevant and rows are listed in storage order. -/
def faissSearch (rows : List Vec) (q : Vec) (k : ℕ) : List (ℝ × ℤ) :=
  (rows.enum.map (fun r => (dotl q r.2, (r.1 : ℤ)))).take k ++
    List.replicate (k - rows.length) ((-1 : ℝ), (-1 : ℤ))

/-- Query-vector normalization of `process_query_batch` (source lines
784-787): divide by the norm only when it is positive. -/
noncomputable def unitQuery (v : Vec) : Vec :=
  if 0 < l2norm v then v.map (fun x => x / l2norm v) else v

/-- One feature-type query of `process_query_batch` (source lines 789-800):
search the folder index with the normalized query for as many results as
there are stored paths, keep the in-bounds indices, and map each to its
image path with the clipped, percent-scaled score. -/
noncomputable def searchHits (d : IndexData) (qv : Vec) : List (String × ℝ) :=
  (faissSearch d.vectors (unitQuery qv) d.imagePaths.length).filterMap
    (fun si =>
      if 0 ≤ si.2 ∧ si.2 < (d.imagePaths.length : ℤ) then
        some (d.imagePaths.getD si.2.toNat "", max 0 (si.1 * 100))
      else none)

/-- Dict update `combined_similarities[target_img][feature_type] = score`
(source lines 798-800). -/
def insertScore (acc : List (String × List (String × ℝ))) (img ft : String)
    (s : ℝ) : List (String × List (String × ℝ)) :=
  match List.lookup img acc with
  | some m => (img, (ft, s) :: m) :: acc.filter (fun p => p.1 != img)
  | none => (img, [(ft, s)]) :: acc

/-- Accumulated per-target per-feature-type scores for one query bundle
(source lines 774-800): for each feature type present in the target folder's
index map, fold all search hits into the dictionary. -/
noncomputable def combinedSimilarities (st : AnalyzerState) (targetFolder : String)
    (qf : FeatureBundle) : List (String × List (String × ℝ)) :=
  featureTypes.foldl (fun acc ft =>
    match List.lookup ft ((List.lookup targetFolder st.folderIndexes).getD []) with
    | some d =>
      (searchHits d (getFeature qf ft)).foldl
        (fun a hit => insertScore a hit.1 ft hit.2) acc
    | none => acc) []

/-- Weighted fusion of accumulated per-feature scores (source lines
803-805): `sum(feature_scores.get(ft, 0) * self.weights[ft] ...)` over the
weight keys. -/
noncomputable def weightedScore (w : Weights) (fscores : List (String × ℝ)) : ℝ :=
  (featureTypes.map (fun ft => ((List.lookup ft fscores).getD 0) * ((wOf w ft : ℚ) : ℝ))).sum

/-- One cross-folder match record (source lines 814-820). -/
structure MatchResult where
  image1 : String
  image2 : String
  visualScore : ℝ
  featureBreakdown : List (String × ℝ)
  comparisonDirection : String

/-- `process_query_batch` (source lines 765-822): per query image, skip it
when its features are not cached, otherwise accumulate per-target scores,
fuse them, keep those at or above the threshold, and orient the pair so that
`image1` belongs to `folder1`. -/
noncomputable def process_query_batch (st : AnalyzerState)
    (targetFolder queryFolder folder1 : String) (thr : ℝ)
    (batch : List String) : List MatchResult :=
  (batch.map (fun qimg =>
    match List.lookup qimg st.featuresCache with
    | none => []
    | some qf =>
      (combinedSimilarities st targetFolder qf).filterMap (fun tp =>
        let final := weightedScore st.weights tp.2
        if thr ≤ final then
          some (if queryFolder = folder1 then
                  ⟨qimg, tp.1, final, tp.2, queryFolder ++ " -> " ++ targetFolder⟩
                else
                  ⟨tp.1, qimg, final, tp.2, queryFolder ++ " -> " ++ targetFolder⟩)
        else none))).flatten

/-- `process_reverse_batch` (source lines 849-898): the reverse-direction
pass queries folder2's indexes with folder1's images and drops any
`(image1, image2)` pair already present among the forward results. -/
noncomputable def process_reverse_batch (st : AnalyzerState)
    (folder1 folder2 : String) (thr : ℝ) (forward : List MatchResult)
    (batch : List String) : List MatchResult :=
  (batch.map (fun qimg =>
    match List.lookup qimg st.featuresCache with
    | none => []
    | some qf =>
      (combinedSimilarities st folder2 qf).filterMap (fun tp =>
        let final := weightedScore st.weights tp.2
        if thr ≤ final then
          if forward.any (fun r => r.image1 == qimg && r.image2 == tp.1) then none
          else some ⟨qimg, tp.1, final, tp.2, folder1 ++ " -> " ++ folder2⟩
        else none))).flatten

/-- Partition a list into consecutive chunks of `max 1 sz` elements,
modeling the query batching at source lines 825-827. -/
def chunkList (sz : ℕ) : List String → List (List String)
  | [] => []
  | a :: rest =>
    (a :: rest).take (max 1 sz) :: chunkList sz ((a :: rest).drop (max 1 sz))
termination_by l => l.length
decreasing_by
  simp only [List.length_drop, List.length_cons]
  omega

/-- Model of `compare_folders_optimized` (source lines 734-921).  When either
folder has no entry in `self.folder_indexes` the call prints a message and
returns the empty list (source lines 738-741).  Otherwise the smaller folder
becomes the query side; queries run in batches, an optional reverse pass adds
de-duplicated opposite-direction results, and everything is sorted by fused
score descending.  The image-path dict accesses can raise `KeyError` when a
folder index exists without a path list, modeled as the error case. -/
noncomputable def compare_folders_optimized (st : AnalyzerState) (maxWorkers : ℕ)
    (folder1 folder2 : String) (thr : ℝ) (useReverse : Bool) :
    Except String (List MatchResult) :=
  if (List.lookup folder1 st.folderIndexes).isNone ||
      (List.lookup folder2 st.folderIndexes).isNone then
    Except.ok []
  else
    match List.lookup folder1 st.folderImagePaths, List.lookup folder2 st.folderImagePaths with
    | some imgs1, some imgs2 =>
      let qt :=
        if imgs2.length < imgs1.length then (folder2, folder1, imgs2)
        else (folder1, folder2, imgs1)
      let bsz := max 1 (qt.2.2.length / maxWorkers)
      let forward := ((chunkList bsz qt.2.2).map
        (process_query_batch st qt.2.1 qt.1 folder1 thr)).flatten
      let results :=
        if useReverse && !(qt.1 == folder1) then
          forward ++ ((chunkList bsz imgs1).map
            (process_reverse_batch st folder1 folder2 thr forward)).flatten
        else forward
      Except.ok (results.mergeSort (fun a b => decide (b.visualScore ≤ a.visualScore)))
    | _, _ => Except.error "KeyError"

/-- Per-folder outputs of the scanning and extraction stages feeding the
index build (source lines 471-475, 544-552): the scanner's valid image list,
the threaded SIFT results, and the batched deep-feature results (the three
per-backbone dicts of `_extract_deep_features_batch` are filled for exactly
the same image keys, so they are modeled as one dict of triples). -/
structure FolderExtraction where
  images : List String
  siftFeatures : List (String × Vec)
  deepFeatures : List (String × (Vec × Vec × Vec))

/-- Images of a folder that produced a complete feature set (source lines
555-557: `img_path in sift_features and img_path in batch_features['vgg16']`). -/
def validPathsOf (fe : FolderExtraction) : List String :=
  fe.images.filter (fun p =>
    (List.lookup p fe.siftFeatures).isSome && (List.lookup p fe.deepFeatures).isSome)

/-- The combined feature dict stored per image (source lines 559-564). -/
def bundleOf (fe : FolderExtraction) (p : String) : FeatureBundle :=
  { sift := (List.lookup p fe.siftFeatures).getD []
    vgg16 := ((List.lookup p fe.deepFeatures).getD ([], [], [])).1
    densenet121 := ((List.lookup p fe.deepFeatures).getD ([], [], [])).2.1
    googlenet := ((List.lookup p fe.deepFeatures).getD ([], [], [])).2.2 }

/-- Index-row normalization (source lines 586-589): divide each row by its
norm, with zero norms replaced by 1. -/
noncomputable def rowNormalize (v : Vec) : Vec :=
  v.map (fun x => x / (if l2norm v = 0 then 1 else l2norm v))

/-- FAISS index construction for one folder (source lines 580-601): for each
feature type with a nonempty feature list, an `IndexFlatIP` over the
normalized feature rows paired with a copy of the valid path list. -/
noncomputable def buildFolderIndexes (fe : FolderExtraction) : List (String × IndexData) :=
  featureTypes.filterMap (fun ft =>
    if ((validPathsOf fe).map (fun p => getFeature (bundleOf fe p) ft)).isEmpty then none
    else some (ft,
      { vectors :=
          ((validPathsOf fe).map (fun p => getFeature (bundleOf fe p) ft)).map rowNormalize
        imagePaths := validPathsOf fe }))

/-- Per-folder loop of `_build_separate_folder_indexes` (source lines
521-603): folders with no valid images are skipped; each processed folder
records its image list, its per-image bundles (also merged into the global
`features_cache`), and its fresh per-feature-type indexes. -/
noncomputable def buildFolders (extr : List (String × FolderExtraction)) :
    List String → AnalyzerState → AnalyzerState
  | [], st => st
  | f :: rest, st =>
    match List.lookup f extr with
    | none => buildFolders extr rest st
    | some fe =>
      if fe.images.isEmpty then buildFolders extr rest st
      else
        buildFolders extr rest
          { st with
            folderImagePaths := (f, fe.images) :: st.folderImagePaths
            folderFeatures :=
              (f, (validPathsOf fe).map (fun p => (p, bundleOf fe p))) :: st.folderFeatures
            featuresCache :=
              (validPathsOf fe).map (fun p => (p, bundleOf fe p)) ++ st.featuresCache
            folderIndexes := (f, buildFolderIndexes fe) :: st.folderIndexes }

/-- Cluster-count adjustment of `_create_bovw_vocabulary` (source lines
412-414): when the descriptor sample is smaller than the configured cluster
count, shrink to half the sample size with a floor of 16. -/
def adjustClusters (clusters nDesc : ℕ) : ℕ :=
  if nDesc < clusters then max 16 (nDesc / 2) else clusters

/-- `_build_separate_folder_indexes` (source lines 463-607): with at least 32
sampled descriptors the BoVW vocabulary is fitted (an external MiniBatchKMeans
run, its successful result passed as `fitted`) after the cluster-count
adjustment; with fewer, `self.bovw_kmeans` is set to `None` for the run.
Then every folder is processed separately. -/
noncomputable def _build_separate_folder_indexes (st : AnalyzerState)
    (extr : List (String × FolderExtraction)) (folders : List String)
    (nSampleDescriptors : ℕ) (fitted : Vocab) : AnalyzerState :=
  let st1 :=
    if 32 ≤ nSampleDescriptors then
      { st with bovwClusters := adjustClusters st.bovwClusters nSampleDescriptors
                bovwKmeans := some fitted }
    else { st with bovwKmeans := none }
  buildFolders extr folders st1

/-- On-disk cache snapshot written by `_save_separate_indexes` (source lines
612-619): serialized indexes, path lists, feature dicts, the vocabulary and
the weights.  `faiss.serialize_index` round-trips a flat index, so the
serialized form is the index content itself.  The weights key is optional on
load (`data.get('weights', ...)`, source line 663). -/
structure Snapshot where
  folderIndexes : List (String × List (String × IndexData))
  folderImagePaths : List (String × List String)
  folderFeatures : List (String × List (String × FeatureBundle))
  featuresCache : List (String × FeatureBundle)
  bovwKmeans : Option Vocab
  weights : Option Weights

/-- Disk operations performed by the cache store, for stating the write
pattern of `_save_separate_indexes`. -/
inductive FsOp where
  | openWrite (path : String)
  | writeFile (path : String)
  | closeFile (path : String)
  | renameFile (src dst : String)
deriving DecidableEq, Repr

/-- Whether a disk operation is a rename. -/
def FsOp.isRenameOp : FsOp → Bool
  | .renameFile _ _ => true
  | _ => false

/-- The path a disk operation affects (the destination, for a rename). -/
def FsOp.target : FsOp → String
  | .openWrite p => p
  | .writeFile p => p
  | .closeFile p => p
  | .renameFile _ d => d

/-- Serialization loop over the per-folder index maps (source lines
622-629): every folder and feature type is carried over (each entry holds an
`'index'` key by construction). -/
def serializeFolderIndexes (fi : List (String × List (String × IndexData))) :
    List (String × List (String × IndexData)) :=
  fi.map (fun fp => (fp.1, fp.2.map (fun ftd => (ftd.1, ftd.2))))

/-- `_save_separate_indexes` (source lines 609-639): build the snapshot dict
from the instance state and pickle it to `filepath` by opening that very
path for writing (`with open(filepath, 'wb') as f: pickle.dump(data, f)`,
source lines 631-632); the returned trace records the disk operations. -/
noncomputable def _save_separate_indexes (st : AnalyzerState) (filepath : String) :
    Snapshot × List FsOp :=
  ({ folderIndexes := serializeFolderIndexes st.folderIndexes
     folderImagePaths := st.folderImagePaths
     folderFeatures := st.folderFeatures
     featuresCache := st.featuresCache
     bovwKmeans := st.bovwKmeans
     weights := some st.weights },
   [FsOp.openWrite filepath, FsOp.writeFile filepath, FsOp.closeFile filepath])

/-- `_load_separate_indexes` (source lines 641-673) on a successfully
unpickled snapshot: deserialize the indexes and adopt every field of the
snapshot, taking the snapshot's weights when present and keeping the current
ones otherwise; the method returns `True`.  (The `except` branch returning
`False` fires only on unreadable files, modeled at the `prepare_folders`
level as a missing disk-cache entry.) -/
def _load_separate_indexes (st : AnalyzerState) (snap : Snapshot) :
    Bool × AnalyzerState :=
  (true,
   { st with
     folderIndexes := serializeFolderIndexes snap.folderIndexes
     folderImagePaths := snap.folderImagePaths
     folderFeatures := snap.folderFeatures
     featuresCache := snap.featuresCache
     bovwKmeans := snap.bovwKmeans
     weights := snap.weights.getD st.weights })

/-- The filesystem facts `prepare_folders` can observe: each folder's own
modification time (`os.stat(folder_path).st_mtime`, source line 681), the
modification times of individual files inside folders (present in the model
to state what the fingerprint does not depend on; the source never reads
them), and the readable cache snapshots on disk keyed by path. -/
structure FileSystem where
  folderMtimes : List (String × ℚ)
  fileMtimes : List (String × ℚ)
  diskCache : List (String × Snapshot)

/-- Insert a string into an already sorted list, keeping it sorted. -/
def insertSorted (x : String) : List String → List String
  | [] => [x]
  | a :: t => if x ≤ a then x :: a :: t else a :: insertSorted x t

/-- Lexicographic insertion sort, modeling Python's `sorted` on the folder
path list (source line 679; the paths are distinct, so any stable
comparison sort computes the same list). -/
def sortStrings : List String → List String
  | [] => []
  | a :: t => insertSorted a (sortStrings t)

/-- Fingerprint elements (source lines 678-684): for each folder in sorted
order, `f"{folder_path}_{folder_stat.st_mtime}"`, or the bare path when
`os.stat` fails. -/
def cacheElements (fs : FileSystem) (folders : List String) : List String :=
  (sortStrings folders).map (fun f =>
    match List.lookup f fs.folderMtimes with
    | some m => f ++ "_" ++ toString m
    | none => f)

/-- The string the cache fingerprint is computed from (source line 686
applies `hashlib.md5` to it and keeps 16 hex digits; md5 is a fixed function
of this string, so equal key data yields equal fingerprints and cache paths —
all theorems below use only such equalities). -/
def cacheKeyData (fs : FileSystem) (folders : List String) : String :=
  String.join (cacheElements fs folders)

/-- The snapshot filename for a fingerprint (source line 687). -/
def indexCachePath (cacheDir keyData : String) : String :=
  cacheDir ++ "/separate_indexes_" ++ keyData ++ ".pkl"

/-- Whether a `prepare_folders` call loaded the disk cache or rebuilt. -/
inductive PrepOutcome where
  | loadedCache
  | rebuilt
deriving DecidableEq, Repr

/-- `prepare_folders` (source lines 675-704): compute the fingerprint from
the folder paths and folder modification times; when caching is on and a
readable snapshot exists under the fingerprint's filename, load and adopt it
wholesale; otherwise run the full build and, when caching is on, save the
fresh state to that filename. -/
noncomputable def prepare_folders (fs : FileSystem) (st : AnalyzerState)
    (cacheDir : String) (extr : List (String × FolderExtraction))
    (nSampleDescriptors : ℕ) (fitted : Vocab)
    (folders : List String) (useCache : Bool) :
    AnalyzerState × PrepOutcome × List FsOp :=
  let path := indexCachePath cacheDir (cacheKeyData fs folders)
  match useCache, List.lookup path fs.diskCache with
  | true, some snap =>
    ((_load_separate_indexes st snap).2, PrepOutcome.loadedCache, [])
  | _, _ =>
    let st1 := _build_separate_folder_indexes st extr folders nSampleDescriptors fitted
    if useCache then (st1, PrepOutcome.rebuilt, (_save_separate_indexes st1 path).2)
    else (st1, PrepOutcome.rebuilt, [])

end VisualSim

namespace VisualSim

/-! Helper lemmas shared by several claims. -/

/-- The per-folder build loop never touches the vocabulary fields. -/
theorem buildFolders_bovw_eq (extr : List (String × FolderExtraction))
    (folders : List String) (st : AnalyzerState) :
    (buildFolders extr folders st).bovwKmeans = st.bovwKmeans ∧
    (buildFolders extr folders st).bovwClusters = st.bovwClusters := by
  induction folders generalizing st with
  | nil => exact ⟨rfl, rfl⟩
  | cons f rest ih =>
    unfold buildFolders
    cases List.lookup f extr with
    | none => exact ih st
    | some fe =>
      cases he : fe.images.isEmpty <;> simp only [he, Bool.false_eq_true,
        if_false, if_true, reduceIte] <;> exact ih _

/-! C1 — failure semantics of an unprepared cross-folder match call. -/

/-- C1 (counterexample): on a fresh engine with no prepared indexes, the
cross-collection match call `compare_folders_optimized` returns the plain
empty result list as a success value — it does not fail with a
"not prepared" hard error, refuting the claim that such a call fails fast
and never returns an empty result set. -/
theorem c1_unprepared_counterexample :
    compare_folders_optimized initialState 8 "folderA" "folderB" 70 true =
      Except.ok [] := rfl

/-- C1 (amended): whenever either folder path has no entry in the engine's
per-folder index map, `compare_folders_optimized` prints a "not prepared"
message and returns the empty result list as a normal non-error value
(source lines 738-741). -/
theorem c1_unprepared_returns_empty (st : AnalyzerState) (mw : ℕ)
    (f1 f2 : String) (thr : ℝ) (rev : Bool)
    (h : List.lookup f1 st.folderIndexes = none ∨
      List.lookup f2 st.folderIndexes = none) :
    compare_folders_optimized st mw f1 f2 thr rev = Except.ok [] := by
  unfold compare_folders_optimized
  rcases h with h | h <;> simp [h]

/-- C1 (witness): the amended statement applied to the fresh engine. -/
theorem c1_unprepared_returns_empty_witness :
    List.lookup "folderA" initialState.folderIndexes = none ∧
    compare_folders_optimized initialState 8 "folderA" "folderB" 70 true =
      Except.ok [] :=
  ⟨rfl, c1_unprepared_returns_empty initialState 8 "folderA" "folderB" 70 true
    (Or.inl rfl)⟩

/-! C9 — shape of the pairwise compare result. -/

/-- C9 (counterexample): comparing two images whose features were never
extracted returns score 0 with an empty per-feature breakdown — a silently
incomplete success value covering none of the configured feature types,
not a raised error. -/
theorem c9_missing_features_counterexample :
    calculate_visual_similarity_optimized initialState "a.png" "b.png" =
      (0, []) := rfl

/-- C9 (amended): `calculate_visual_similarity_optimized` returns
`(0.0, {})` whenever either image is missing from the feature cache, and a
breakdown covering exactly the four configured feature types when both are
cached; no error is ever raised. -/
theorem c9_compare_shape (st : AnalyzerState) (p1 p2 : String) :
    ((List.lookup p1 st.featuresCache = none ∨
        List.lookup p2 st.featuresCache = none) →
      calculate_visual_similarity_optimized st p1 p2 = (0, [])) ∧
    (∀ f1 f2, List.lookup p1 st.featuresCache = some f1 →
      List.lookup p2 st.featuresCache = some f2 →
      (calculate_visual_similarity_optimized st p1 p2).2.map Prod.fst =
        featureTypes) := by
  constructor
  · intro h
    unfold calculate_visual_similarity_optimized
    rcases h with h | h
    · rw [h]
    · rw [h]; cases List.lookup p1 st.featuresCache <;> rfl
  · intro f1 f2 h1 h2
    unfold calculate_visual_similarity_optimized
    rw [h1, h2]
    simp [Function.comp_def]

/-- A one-image feature bundle used to witness the cached-compare shape. -/
noncomputable def witnessBundle : FeatureBundle :=
  { sift := [1], vgg16 := [1], densenet121 := [1], googlenet := [1] }

/-- An engine state whose cache holds exactly one extracted image. -/
noncomputable def witnessState : AnalyzerState :=
  { initialState with featuresCache := [("x.png", witnessBundle)] }

/-- C9 (witness): both cases of the amended statement on concrete states. -/
theorem c9_compare_shape_witness :
    calculate_visual_similarity_optimized initialState "a.png" "b.png" =
      (0, []) ∧
    (calculate_visual_similarity_optimized witnessState "x.png" "x.png").2.map
      Prod.fst = featureTypes :=
  ⟨(c9_compare_shape initialState "a.png" "b.png").1 (Or.inl rfl),
   (c9_compare_shape witnessState "x.png" "x.png").2 witnessBundle witnessBundle
     rfl rfl⟩

/-! C5 — the fusion-weight invariant. -/

/-- A cache snapshot carrying weights that sum to 4 instead of 1. -/
def badWeightSnapshot : Snapshot :=
  { folderIndexes := [], folderImagePaths := [], folderFeatures := []
    featuresCache := [], bovwKmeans := none, weights := some ⟨1, 1, 1, 1⟩ }

/-- C5 (counterexample): loading a snapshot whose weights sum to 4 succeeds
(the method reports `True`) and silently installs those weights unchanged —
no fail-fast configuration check exists on this path (source line 663), so
weights not summing to 1.0 are accepted from a loaded cache snapshot. -/
theorem c5_unchecked_weights_counterexample :
    (_load_separate_indexes initialState badWeightSnapshot).1 = true ∧
    (_load_separate_indexes initialState badWeightSnapshot).2.weights.sift +
      (_load_separate_indexes initialState badWeightSnapshot).2.weights.vgg16 +
      (_load_separate_indexes initialState badWeightSnapshot).2.weights.densenet121 +
      (_load_separate_indexes initialState badWeightSnapshot).2.weights.googlenet
      = 4 := by
  exact ⟨rfl, by norm_num [_load_separate_indexes, badWeightSnapshot]⟩

/-- C5 (amended): the default weights installed at construction sum to
exactly 1, but no sum check is ever enforced: `_load_separate_indexes`
succeeds on any snapshot and adopts whatever weights the snapshot carries,
unchanged. -/
theorem c5_weights_default_sum_unenforced :
    defaultWeights.sift + defaultWeights.vgg16 + defaultWeights.densenet121 +
      defaultWeights.googlenet = 1 ∧
    initialState.weights = defaultWeights ∧
    ∀ st snap w, snap.weights = some w →
      (_load_separate_indexes st snap).1 = true ∧
      (_load_separate_indexes st snap).2.weights = w := by
  refine ⟨by norm_num [defaultWeights], rfl, ?_⟩
  intro st snap w h
  exact ⟨rfl, by simp [_load_separate_indexes, h]⟩

/-- C5 (witness): the amended statement applied to the bad snapshot. -/
theorem c5_weights_witness :
    badWeightSnapshot.weights = some ⟨1, 1, 1, 1⟩ ∧
    (_load_separate_indexes initialState badWeightSnapshot).2.weights =
      ⟨1, 1, 1, 1⟩ :=
  ⟨rfl, (c5_weights_default_sum_unenforced.2.2 initialState badWeightSnapshot
    ⟨1, 1, 1, 1⟩ rfl).2⟩

/-! C2 — cache fingerprinting and invalidation. -/

/-- A snapshot with no content, standing for a previously saved cache file. -/
def emptySnapshot : Snapshot :=
  { folderIndexes := [], folderImagePaths := [], folderFeatures := []
    featuresCache := [], bovwKmeans := none, weights := none }

/-- Filesystem before the touch: folder "A" (mtime 100) contains a file with
mtime 1, and a snapshot for the current fingerprint is on disk. -/
def fsBeforeTouch : FileSystem :=
  { folderMtimes := [("A", 100)]
    fileMtimes := [("A/logo.png", 1)]
    diskCache := [("visual_cache/separate_indexes_A_100.pkl", emptySnapshot)] }

/-- The same filesystem after touching `A/logo.png` (its mtime becomes 2);
the folder's own mtime is unchanged, as a file touch does not modify the
directory entry. -/
def fsAfterTouch : FileSystem :=
  { fsBeforeTouch with fileMtimes := [("A/logo.png", 2)] }

/-- C2 (counterexample): changing the mtime of a file inside prepared folder
"A" leaves the cache fingerprint unchanged — it is computed from the
folder's own stat, not from files — and the re-run of `prepare_folders`
takes the cache-hit path (a stale load), not a rebuild. -/
theorem c2_file_touch_counterexample :
    fsAfterTouch.fileMtimes ≠ fsBeforeTouch.fileMtimes ∧
    cacheKeyData fsAfterTouch ["A"] = cacheKeyData fsBeforeTouch ["A"] ∧
    (prepare_folders fsAfterTouch initialState "visual_cache" [] 0 ⟨[]⟩ ["A"]
      true).2.1 = PrepOutcome.loadedCache := by
  refine ⟨by decide, rfl, rfl⟩

/-- C2 (amended): the fingerprint is a function of the folder paths and each
folder's own directory mtime alone; mtimes of files inside the folders are
never read.  Two filesystem states agreeing on folder mtimes and disk cache
therefore produce identical fingerprint data and an identical
`prepare_folders` run even when file mtimes differ, so a file touch that
leaves the folder mtime unchanged results in a cache hit and a stale load
rather than a rebuild. -/
theorem c2_fingerprint_folder_mtimes_only (fs fs' : FileSystem)
    (st : AnalyzerState) (cacheDir : String)
    (extr : List (String × FolderExtraction)) (n : ℕ) (fv : Vocab)
    (folders : List String) (useCache : Bool)
    (hm : fs.folderMtimes = fs'.folderMtimes)
    (hd : fs.diskCache = fs'.diskCache) :
    cacheKeyData fs folders = cacheKeyData fs' folders ∧
    prepare_folders fs st cacheDir extr n fv folders useCache =
      prepare_folders fs' st cacheDir extr n fv folders useCache := by
  have hk : cacheKeyData fs folders = cacheKeyData fs' folders := by
    unfold cacheKeyData cacheElements
    rw [hm]
  refine ⟨hk, ?_⟩
  unfold prepare_folders
  rw [hk, hd]

/-- C2 (witness): the amended statement applied to the touched filesystem. -/
theorem c2_fingerprint_witness :
    fsAfterTouch.folderMtimes = fsBeforeTouch.folderMtimes ∧
    cacheKeyData fsAfterTouch ["A"] = cacheKeyData fsBeforeTouch ["A"] :=
  ⟨rfl, (c2_fingerprint_folder_mtimes_only fsAfterTouch fsBeforeTouch
    initialState "visual_cache" [] 0 ⟨[]⟩ ["A"] true rfl rfl).1⟩

/-! C6 — vocabulary sizing and the no-vocabulary fallback. -/

/-- C6 (counterexample): with the default 256 clusters and a pooled sample
of 300 descriptors, the sample is smaller than K·2 = 512, yet the cluster
count is not shrunk — `_create_bovw_vocabulary` only shrinks when the sample
is smaller than K itself (source line 412). -/
theorem c6_shrink_condition_counterexample :
    300 < 2 * 256 ∧ adjustClusters 256 300 = 256 := by decide

/-- C6 (amended): the cluster count K is shrunk exactly when the pooled
descriptor sample is smaller than K (to half the sample size, floor 16);
with fewer than 32 sampled descriptors the vocabulary is disabled for the
run, and with at least 32 the fitted vocabulary is adopted together with the
adjusted cluster count; with no vocabulary, every image with a nonempty
descriptor set is encoded by the normalized descriptor-mean fallback instead
of a cluster histogram. -/
theorem c6_vocabulary_sizing (K n : ℕ) (st : AnalyzerState)
    (extr : List (String × FolderExtraction)) (folders : List String)
    (fv : Vocab) (clusters : ℕ) (inp : SiftInput) :
    (n < K → adjustClusters K n = max 16 (n / 2)) ∧
    (K ≤ n → adjustClusters K n = K) ∧
    (n < 32 →
      (_build_separate_folder_indexes st extr folders n fv).bovwKmeans = none) ∧
    (32 ≤ n →
      (_build_separate_folder_indexes st extr folders n fv).bovwKmeans = some fv ∧
      (_build_separate_folder_indexes st extr folders n fv).bovwClusters =
        adjustClusters st.bovwClusters n) ∧
    (inp.descriptors ≠ [] →
      _extract_improved_sift_features none clusters inp =
        descriptor_mean_fallback clusters
          (cap300 inp.descriptors inp.responses) inp.qualityPoor) := by
  refine ⟨?_, ?_, ?_, ?_, ?_⟩
  · intro h; simp [adjustClusters, h]
  · intro h; simp [adjustClusters, Nat.not_lt.2 h]
  · intro h
    unfold _build_separate_folder_indexes
    have h32 : ¬ 32 ≤ n := by omega
    simp only [h32, if_false, reduceIte]
    exact (buildFolders_bovw_eq extr folders _).1
  · intro h
    unfold _build_separate_folder_indexes
    simp only [h, if_true, reduceIte]
    exact ⟨(buildFolders_bovw_eq extr folders _).1,
      (buildFolders_bovw_eq extr folders _).2⟩
  · intro h
    unfold _extract_improved_sift_features
    simp [h]

/-- C6 (witness): all parts of the amended statement on concrete inputs. -/
theorem c6_vocabulary_sizing_witness :
    adjustClusters 256 100 = max 16 50 ∧
    adjustClusters 256 300 = 256 ∧
    (_build_separate_folder_indexes initialState [] [] 10 ⟨[]⟩).bovwKmeans =
      none ∧
    (_build_separate_folder_indexes initialState [] [] 40 ⟨[]⟩).bovwKmeans =
      some ⟨[]⟩ ∧
    _extract_improved_sift_features none 256 ⟨[[1]], [1], [], false⟩ =
      descriptor_mean_fallback 256 (cap300 [[1]] [1]) false :=
  ⟨(c6_vocabulary_sizing 256 100 initialState [] [] ⟨[]⟩ 256
      ⟨[[1]], [1], [], false⟩).1 (by decide),
   (c6_vocabulary_sizing 256 300 initialState [] [] ⟨[]⟩ 256
      ⟨[[1]], [1], [], false⟩).2.1 (by decide),
   (c6_vocabulary_sizing 256 10 initialState [] [] ⟨[]⟩ 256
      ⟨[[1]], [1], [], false⟩).2.2.1 (by decide),
   ((c6_vocabulary_sizing 256 40 initialState [] [] ⟨[]⟩ 256
      ⟨[[1]], [1], [], false⟩).2.2.2.1 (by decide)).1,
   (c6_vocabulary_sizing 256 40 initialState [] [] ⟨[]⟩ 256
      ⟨[[1]], [1], [], false⟩).2.2.2.2 (by simp)⟩

/-! C8 — the snapshot write pattern. -/

/-- C8 (counterexample): the snapshot save opens the final cache filename
itself for writing and performs no rename anywhere — there is no
write-to-temporary-then-rename step, so an interruption mid-write leaves a
partial file visible under the final snapshot filename. -/
theorem c8_direct_write_counterexample :
    FsOp.openWrite "visual_cache/separate_indexes_k.pkl" ∈
      (_save_separate_indexes initialState
        "visual_cache/separate_indexes_k.pkl").2 ∧
    (_save_separate_indexes initialState
      "visual_cache/separate_indexes_k.pkl").2.all
        (fun op => !op.isRenameOp) = true :=
  ⟨by simp [_save_separate_indexes], rfl⟩

/-- C8 (amended): every disk operation of `_save_separate_indexes` targets
the final snapshot path directly and none is a rename; the snapshot written
there is the serialized instance state (weights and feature cache
included).  A crash mid-write can therefore leave a partially-written cache
file under the final name; its unpickling failure on a later load is
treated as a cache miss. -/
theorem c8_save_writes_final_path (st : AnalyzerState) (fp : String) :
    FsOp.openWrite fp ∈ (_save_separate_indexes st fp).2 ∧
    (_save_separate_indexes st fp).2.all (fun op => !op.isRenameOp) = true ∧
    (_save_separate_indexes st fp).2.all (fun op => op.target == fp) = true ∧
    (_save_separate_indexes st fp).1.weights = some st.weights ∧
    (_save_separate_indexes st fp).1.featuresCache = st.featuresCache := by
  refine ⟨by simp [_save_separate_indexes], rfl, ?_, rfl, rfl⟩
  simp [_save_separate_indexes, FsOp.target]

end VisualSim

namespace VisualSim

/-! Numeric helper lemmas about vectors and norms. -/

/-- The inner product is symmetric. -/
theorem dotl_comm (a b : Vec) : dotl a b = dotl b a := by
  unfold dotl
  rw [List.zipWith_comm_of_comm (fun x y => x * y) mul_comm]

/-- A sum of squares is nonnegative. -/
theorem sumSq_nonneg (v : Vec) : 0 ≤ sumSq v := by
  unfold sumSq dotl
  rw [List.zipWith_same]
  refine List.sum_nonneg ?_
  intro x hx
  obtain ⟨a, _, rfl⟩ := List.mem_map.1 hx
  exact mul_self_nonneg a

/-- Dividing every entry by `c` divides the sum of squares by `c * c`. -/
theorem sumSq_map_div (v : Vec) (c : ℝ) :
    sumSq (v.map (fun x => x / c)) = sumSq v / (c * c) := by
  unfold sumSq dotl
  rw [List.zipWith_map, List.zipWith_same, List.zipWith_same]
  have h : (fun a : ℝ => a / c * (a / c)) = fun a : ℝ => a * a * (c * c)⁻¹ := by
    funext a; ring
  rw [h, List.sum_map_mul_right, div_eq_mul_inv]

/-- The norm squared recovers the sum of squares. -/
theorem l2norm_mul_self (v : Vec) : l2norm v * l2norm v = sumSq v := by
  unfold l2norm
  exact Real.mul_self_sqrt (sumSq_nonneg v)

/-- Dividing every entry by a nonnegative `c` divides the norm by `c`. -/
theorem l2norm_map_div (v : Vec) (c : ℝ) (hc : 0 ≤ c) :
    l2norm (v.map (fun x => x / c)) = l2norm v / c := by
  unfold l2norm
  rw [sumSq_map_div, show c * c = c ^ 2 by ring, Real.sqrt_div (sumSq_nonneg v),
    Real.sqrt_sq hc]

/-- The norm of the singleton vector `[1]`. -/
theorem l2norm_single_one : l2norm [(1 : ℝ)] = 1 := by
  simp [l2norm, sumSq, dotl]

/-- Rational sum of squares, for evaluating extractor outputs exactly. -/
def qSumSq (v : QVec) : ℚ := (v.map (fun x => x * x)).sum

/-- Casting a rational vector preserves the sum of squares. -/
theorem sumSq_castVec (v : QVec) : sumSq (castVec v) = ((qSumSq v : ℚ) : ℝ) := by
  unfold sumSq dotl castVec qSumSq
  rw [List.zipWith_same, List.map_map]
  rw [show ((((v.map (fun x => x * x)).sum : ℚ)) : ℝ) =
      (Rat.castHom ℝ) ((v.map (fun x => x * x)).sum) from rfl]
  have hmc : List.map ((fun a : ℝ => a * a) ∘ fun q : ℚ => (Rat.cast q : ℝ)) v =
      List.map (⇑(Rat.castHom ℝ) ∘ fun x : ℚ => x * x) v :=
    List.map_congr_left (fun a _ => by simp)
  rw [map_list_sum, List.map_map, hmc]

end VisualSim

namespace VisualSim

/-! C3 — normalization of extracted feature vectors. -/

/-- An extractor input for an image with zero detected keypoints after the
whole fallback chain, whose grayscale histogram has two equal nonzero
bins. -/
def zeroKeypointInput : SiftInput :=
  { descriptors := [], responses := [], grayHist := [1, 1], qualityPoor := false }

/-- C3 (counterexample): for an image with zero detected keypoints, the
grayscale-histogram pseudo-descriptor returned by the SIFT extractor is
L1-normalized, not L2-normalized: on a histogram with two equal bins its L2
norm is `sqrt(1/2) ≈ 0.707`, farther than 1e-6 from 1 — refuting the claim
that every feature-type vector of a FeatureBundle has unit L2 norm. -/
theorem c3_hist_fallback_counterexample :
    l2norm (_extract_improved_sift_features none 256 zeroKeypointInput) <
      1 - 1 / 10 ^ 6 := by
  have he : _extract_improved_sift_features none 256 zeroKeypointInput =
      castVec (hist_fallback 256 [1, 1]) := rfl
  have hp : padTrunc 256 [1, 1] = ([1, 1] : QVec) ++ List.replicate 254 0 := by
    unfold padTrunc
    norm_num
  have hs : (([1, 1] : QVec) ++ List.replicate 254 0).sum = 2 := by
    rw [List.sum_append, List.sum_replicate, smul_zero]
    norm_num
  have hf : hist_fallback 256 [1, 1] =
      (([1, 1] : QVec) ++ List.replicate 254 0).map (fun x => x / 2) := by
    unfold hist_fallback
    rw [hp, hs]
    norm_num
  have hq : qSumSq ((([1, 1] : QVec) ++ List.replicate 254 0).map (fun x => x / 2)) =
      1 / 2 := by
    unfold qSumSq
    rw [List.map_append, List.map_replicate, List.map_append, List.map_replicate,
      List.sum_append, show ((0 : ℚ) / 2) * ((0 : ℚ) / 2) = 0 by norm_num,
      List.sum_replicate, smul_zero]
    norm_num
  have hss : sumSq (castVec (hist_fallback 256 [1, 1])) = ((1 / 2 : ℚ) : ℝ) := by
    rw [sumSq_castVec, hf, hq]
  rw [he]
  unfold l2norm
  rw [hss]
  rw [show (((1 / 2 : ℚ)) : ℝ) = (1 / 2 : ℝ) by norm_num]
  rw [Real.sqrt_lt' (by norm_num : (0 : ℝ) < 1 - 1 / 10 ^ 6)]
  norm_num

/-- A torch-normalized vector whose raw norm is at least the 1e-12 clamp
has exactly unit L2 norm. -/
theorem torch_normalize_unit (raw : Vec) (h : 1 / 10 ^ 12 ≤ l2norm raw) :
    l2norm (torch_normalize raw) = 1 := by
  have hpos : (0 : ℝ) < l2norm raw := lt_of_lt_of_le (by norm_num) h
  unfold torch_normalize
  rw [max_eq_left h, l2norm_map_div raw _ hpos.le, div_self (ne_of_gt hpos)]

/-- The grayscale-histogram fallback vector is L1-normalized: its entries
sum to 1, in both the divide-by-sum and the uniform branch. -/
theorem hist_fallback_sum (clusters : ℕ) (hist : QVec) (hc : 0 < clusters) :
    (hist_fallback clusters hist).sum = 1 := by
  unfold hist_fallback
  by_cases hs : 0 < (padTrunc clusters hist).sum
  · simp only [hs, if_true, reduceIte]
    have hmul : ((padTrunc clusters hist).map
        (fun x => x / (padTrunc clusters hist).sum)).sum =
        ((padTrunc clusters hist).map (fun x : ℚ => x)).sum *
          ((padTrunc clusters hist).sum)⁻¹ := by
      rw [← List.sum_map_mul_right]
      refine congrArg List.sum (List.map_congr_left ?_)
      intro a _
      rw [div_eq_mul_inv]
    rw [hmul, List.map_id']
    field_simp
  · simp only [hs, if_false, reduceIte]
    rw [List.sum_replicate, nsmul_eq_mul]
    have : (clusters : ℚ) ≠ 0 := Nat.cast_ne_zero.2 (Nat.pos_iff_ne_zero.1 hc)
    field_simp

/-- C3 (amended): the three backbone embedding vectors are L2-normalized —
any raw activation with norm at least the 1e-12 clamp comes out with unit
L2 norm — while the local-descriptor vector of the grayscale-histogram
fallback is instead L1-normalized: its entries always sum to 1 (for any
positive cluster count), so its L2 norm is generally below 1. -/
theorem c3_normalization_profile :
    (∀ raw : Vec, 1 / 10 ^ 12 ≤ l2norm raw →
      l2norm (torch_normalize raw) = 1) ∧
    (∀ (clusters : ℕ) (hist : QVec), 0 < clusters →
      (hist_fallback clusters hist).sum = 1) :=
  ⟨torch_normalize_unit, hist_fallback_sum⟩

/-- C3 (witness): the amended statement at a unit raw activation and at a
small concrete histogram. -/
theorem c3_normalization_witness :
    1 / 10 ^ 12 ≤ l2norm [(1 : ℝ)] ∧
    l2norm (torch_normalize [(1 : ℝ)]) = 1 ∧
    (hist_fallback 4 [3]).sum = 1 := by
  have h1 : (1 : ℝ) / 10 ^ 12 ≤ l2norm [(1 : ℝ)] := by
    rw [l2norm_single_one]; norm_num
  exact ⟨h1, c3_normalization_profile.1 [(1 : ℝ)] h1,
    c3_normalization_profile.2 4 [3] (by norm_num)⟩

/-! C10 — symmetry of the pairwise compare. -/

/-- C10 (confirmed): the pairwise compare is symmetric — swapping the two
image paths gives the same fused score and the same per-feature-type
breakdown, in every engine state (including the missing-features cases). -/
theorem c10_compare_symmetric (st : AnalyzerState) (p q : String) :
    calculate_visual_similarity_optimized st p q =
      calculate_visual_similarity_optimized st q p := by
  unfold calculate_visual_similarity_optimized
  cases h1 : List.lookup p st.featuresCache with
  | none => cases h2 : List.lookup q st.featuresCache <;> rfl
  | some f1 =>
    cases h2 : List.lookup q st.featuresCache with
    | none => rfl
    | some f2 =>
      have hfun : (fun ft => (ft, max 0 (dotl (unitizeEps (getFeature f1 ft))
          (unitizeEps (getFeature f2 ft)) * 100))) =
          (fun ft => (ft, max 0 (dotl (unitizeEps (getFeature f2 ft))
            (unitizeEps (getFeature f1 ft)) * 100))) := by
        funext ft
        rw [dotl_comm]
      simp only [hfun]

end VisualSim

namespace VisualSim

/-! C4 — self-comparison scores 100. -/

/-- Self-similarity of any vector with norm at least 1/20: the clipped
percent score lands within 1e-4 of 100 (the 1e-8 added to the norm in the
denominator costs at most about 4e-5 at that norm). -/
theorem selfSim_bounds (v : Vec) (h : 1 / 20 ≤ l2norm v) :
    100 - 1 / 10 ^ 4 ≤ max 0 (dotl (unitizeEps v) (unitizeEps v) * 100) ∧
    max 0 (dotl (unitizeEps v) (unitizeEps v) * 100) ≤ 100 := by
  have hd : dotl (unitizeEps v) (unitizeEps v) =
      sumSq v / ((l2norm v + 1 / 10 ^ 8) * (l2norm v + 1 / 10 ^ 8)) := by
    show sumSq (unitizeEps v) = _
    unfold unitizeEps
    rw [sumSq_map_div]
  have hs : sumSq v = l2norm v * l2norm v := (l2norm_mul_self v).symm
  set n := l2norm v with hn
  have hnpos : (0 : ℝ) < n := lt_of_lt_of_le (by norm_num) h
  have hden : (0 : ℝ) < (n + 1 / 10 ^ 8) * (n + 1 / 10 ^ 8) := by positivity
  have hsim : dotl (unitizeEps v) (unitizeEps v) =
      n * n / ((n + 1 / 10 ^ 8) * (n + 1 / 10 ^ 8)) := by rw [hd, hs]
  have hub : n * n / ((n + 1 / 10 ^ 8) * (n + 1 / 10 ^ 8)) ≤ 1 := by
    rw [div_le_one hden]
    nlinarith [hnpos]
  have hlb : 1 - 1 / 10 ^ 6 ≤ n * n / ((n + 1 / 10 ^ 8) * (n + 1 / 10 ^ 8)) := by
    rw [le_div_iff₀ hden]
    nlinarith [h, hnpos, mul_le_mul_of_nonneg_right h hnpos.le]
  constructor
  · have hstep : 100 - 1 / 10 ^ 4 ≤ dotl (unitizeEps v) (unitizeEps v) * 100 := by
      rw [hsim]
      nlinarith [hlb]
    exact le_trans hstep (le_max_right _ _)
  · rw [hsim]
    refine max_le (by norm_num) ?_
    nlinarith [hub]

/-- C4 (confirmed): comparing a cached image against itself yields a fused
score within 1e-4 of 100 and a per-feature breakdown in which every entry is
within 1e-4 of 100.  The norm hypotheses record the extraction invariant
that every cached vector has L2 norm at least 1/20 (the L1-normalized
histogram encodings have norm at least 0.9/16 = 0.05625 — see
`hist_fallback_norm_ge` below for the zero-keypoint branch — and all other
extractor branches produce norms of 0.95 or 1); the weights are the
engine's configured defaults. -/
theorem c4_self_compare_score (st : AnalyzerState) (p : String)
    (b : FeatureBundle)
    (hb : List.lookup p st.featuresCache = some b)
    (hw : st.weights = defaultWeights)
    (h1 : 1 / 20 ≤ l2norm b.sift) (h2 : 1 / 20 ≤ l2norm b.vgg16)
    (h3 : 1 / 20 ≤ l2norm b.densenet121) (h4 : 1 / 20 ≤ l2norm b.googlenet) :
    |(calculate_visual_similarity_optimized st p p).1 - 100| ≤ 1 / 10 ^ 4 ∧
    ∀ pr ∈ (calculate_visual_similarity_optimized st p p).2,
      |pr.2 - 100| ≤ 1 / 10 ^ 4 := by
  have hS := selfSim_bounds b.sift h1
  have hV := selfSim_bounds b.vgg16 h2
  have hD := selfSim_bounds b.densenet121 h3
  have hG := selfSim_bounds b.googlenet h4
  unfold calculate_visual_similarity_optimized
  rw [hb, hw]
  simp only [featureTypes, List.map_cons, List.map_nil, List.sum_cons,
    List.sum_nil, getFeature, wOf, defaultWeights, String.reduceEq, reduceIte]
  constructor
  · rw [abs_le]
    constructor <;> push_cast <;>
      linarith [hS.1, hS.2, hV.1, hV.2, hD.1, hD.2, hG.1, hG.2]
  · intro pr hpr
    simp only [List.mem_cons, List.not_mem_nil, or_false] at hpr
    rcases hpr with rfl | rfl | rfl | rfl <;> rw [abs_le] <;> constructor <;>
      linarith [hS.1, hS.2, hV.1, hV.2, hD.1, hD.2, hG.1, hG.2]

/-- C4 (witness): the theorem applied to a concrete one-image state whose
cached bundle holds unit vectors. -/
theorem c4_self_compare_witness :
    List.lookup "x.png" witnessState.featuresCache = some witnessBundle ∧
    witnessState.weights = defaultWeights ∧
    1 / 20 ≤ l2norm witnessBundle.sift ∧
    |(calculate_visual_similarity_optimized witnessState "x.png" "x.png").1 -
      100| ≤ 1 / 10 ^ 4 := by
  have hn : (1 : ℝ) / 20 ≤ l2norm [(1 : ℝ)] := by
    rw [l2norm_single_one]
    norm_num
  exact ⟨rfl, rfl, hn,
    (c4_self_compare_score witnessState "x.png" witnessBundle rfl rfl
      hn hn hn hn).1⟩

end VisualSim

namespace VisualSim

/-! C7 — isolation of per-folder indexes. -/

/-- Every hit returned by a folder-index query names one of the stored image
paths: the source's bound check `0 <= idx < len(target_paths)` guards every
access into the aligned path list. -/
theorem searchHits_mem_paths (d : IndexData) (qv : Vec) (hit : String × ℝ)
    (h : hit ∈ searchHits d qv) : hit.1 ∈ d.imagePaths := by
  unfold searchHits at h
  obtain ⟨si, hsi, heq⟩ := List.mem_filterMap.1 h
  by_cases hc : 0 ≤ si.2 ∧ si.2 < (d.imagePaths.length : ℤ)
  · rw [if_pos hc] at heq
    have hpair := Option.some.inj heq
    have hlt : si.2.toNat < d.imagePaths.length := by omega
    rw [← hpair]
    show d.imagePaths.getD si.2.toNat "" ∈ d.imagePaths
    rw [List.getD_eq_getElem d.imagePaths "" hlt]
    exact List.getElem_mem hlt
  · rw [if_neg hc] at heq
    exact absurd heq (by simp)

/-- A successful association-list lookup comes from some entry of the list. -/
theorem lookup_some_mem {β : Type} (l : List (String × β)) (k : String) (b : β)
    (h : List.lookup k l = some b) : ∃ a, (a, b) ∈ l := by
  induction l with
  | nil => simp [List.lookup] at h
  | cons e t ih =>
    obtain ⟨k', v⟩ := e
    by_cases hk : (k == k') = true
    · refine ⟨k', ?_⟩
      simp only [List.lookup, hk] at h
      rw [Option.some.inj h]
      exact List.mem_cons_self _ _
    · simp only [List.lookup, hk] at h
      obtain ⟨a, ha⟩ := ih h
      exact ⟨a, List.mem_cons_of_mem _ ha⟩

/-- Every index entry built for a folder carries exactly that folder's valid
path list. -/
theorem buildFolderIndexes_imagePaths (fe : FolderExtraction)
    (e : String × IndexData) (he : e ∈ buildFolderIndexes fe) :
    e.2.imagePaths = validPathsOf fe := by
  unfold buildFolderIndexes at he
  obtain ⟨ft, _, heq⟩ := List.mem_filterMap.1 he
  by_cases hc : ((validPathsOf fe).map (fun p => getFeature (bundleOf fe p) ft)).isEmpty
  · rw [if_pos hc] at heq
    exact absurd heq (by simp)
  · rw [if_neg hc] at heq
    rw [← Option.some.inj heq]

/-- Invariant tying the per-folder index map to the prepared image lists:
any feature-type index stored for a folder names only images of that
folder's prepared list. -/
def IndexPathsConsistent (st : AnalyzerState) : Prop :=
  ∀ X fd ft d imgs,
    List.lookup X st.folderIndexes = some fd →
    List.lookup ft fd = some d →
    List.lookup X st.folderImagePaths = some imgs →
    ∀ p ∈ d.imagePaths, p ∈ imgs

/-- The per-folder build loop preserves index/path-list consistency: each
processed folder installs its index map and its image list together, and the
index rows are aligned to the folder's valid paths, a subset of its scanned
images. -/
theorem buildFolders_consistent (extr : List (String × FolderExtraction))
    (folders : List String) (st : AnalyzerState)
    (hst : IndexPathsConsistent st) :
    IndexPathsConsistent (buildFolders extr folders st) := by
  induction folders generalizing st with
  | nil => exact hst
  | cons f rest ih =>
    unfold buildFolders
    cases List.lookup f extr with
    | none => exact ih st hst
    | some fe =>
      dsimp only
      by_cases he : fe.images.isEmpty = true
      · rw [if_pos he]
        exact ih st hst
      · rw [if_neg he]
        refine ih _ ?_
        intro X fd ft d imgs hfd hft himgs p hp
        by_cases hX : (X == f) = true
        · simp only [List.lookup, hX] at hfd himgs
          obtain ⟨a, ham⟩ := lookup_some_mem fd ft d hft
          have hpaths : d.imagePaths = validPathsOf fe := by
            have hbe := buildFolderIndexes_imagePaths fe (a, d)
            rw [← Option.some.inj hfd] at ham
            exact hbe ham
          rw [hpaths] at hp
          rw [← Option.some.inj himgs]
          exact List.mem_of_mem_filter hp
        · simp only [List.lookup, hX] at hfd himgs
          exact hst X fd ft d imgs hfd hft himgs p hp

/-- The fresh engine state trivially satisfies the consistency invariant. -/
theorem initialState_consistent : IndexPathsConsistent initialState := by
  intro X fd ft d imgs hfd
  simp [initialState, List.lookup] at hfd

/-- A full build starting from a consistent state yields a consistent
state (the vocabulary step does not touch the folder maps). -/
theorem build_consistent (st : AnalyzerState) (hst : IndexPathsConsistent st)
    (extr : List (String × FolderExtraction)) (folders : List String)
    (n : ℕ) (fv : Vocab) :
    IndexPathsConsistent (_build_separate_folder_indexes st extr folders n fv) := by
  unfold _build_separate_folder_indexes
  by_cases h32 : 32 ≤ n
  · rw [if_pos h32]
    exact buildFolders_consistent extr folders _ hst
  · rw [if_neg h32]
    exact buildFolders_consistent extr folders _ hst

/-- C7 (confirmed): after preparing a folder set from a fresh engine, a
query against any of folder X's per-feature-type ANN indexes only ever
yields image paths belonging to X's prepared image list; in particular,
when Y is a different prepared folder (distinct folders hold distinct file
paths, stated as disjointness of the two image lists), no hit ever names
one of Y's images. -/
theorem c7_index_isolation (extr : List (String × FolderExtraction))
    (folders : List String) (n : ℕ) (fv : Vocab) (X Y : String)
    (fd : List (String × IndexData)) (ft : String) (d : IndexData)
    (imgsX imgsY : List String) (qv : Vec)
    (hX : List.lookup X
      (_build_separate_folder_indexes initialState extr folders n fv).folderIndexes =
        some fd)
    (hft : List.lookup ft fd = some d)
    (hpx : List.lookup X
      (_build_separate_folder_indexes initialState extr folders n fv).folderImagePaths =
        some imgsX)
    (hpy : List.lookup Y
      (_build_separate_folder_indexes initialState extr folders n fv).folderImagePaths =
        some imgsY)
    (hXY : X ≠ Y)
    (hdisj : ∀ p ∈ imgsY, p ∉ imgsX) :
    ∀ hit ∈ searchHits d qv, hit.1 ∈ imgsX ∧ hit.1 ∉ imgsY := by
  intro hit hmem
  have h1 : hit.1 ∈ d.imagePaths := searchHits_mem_paths d qv hit hmem
  have h2 : hit.1 ∈ imgsX :=
    build_consistent initialState initialState_consistent extr folders n fv
      X fd ft d imgsX hX hft hpx hit.1 h1
  exact ⟨h2, fun hy => hdisj hit.1 hy h2⟩

/-- Extraction results for a one-image folder "A". -/
noncomputable def feA : FolderExtraction :=
  { images := ["A/1.png"]
    siftFeatures := [("A/1.png", [1])]
    deepFeatures := [("A/1.png", ([1], [1], [1]))] }

/-- Extraction results for a one-image folder "B". -/
noncomputable def feB : FolderExtraction :=
  { images := ["B/1.png"]
    siftFeatures := [("B/1.png", [1])]
    deepFeatures := [("B/1.png", ([1], [1], [1]))] }

/-- The engine state after preparing folders "A" and "B" from scratch. -/
noncomputable def builtAB : AnalyzerState :=
  _build_separate_folder_indexes initialState [("A", feA), ("B", feB)]
    ["A", "B"] 0 ⟨[]⟩

/-- Folder "A"'s per-feature-type index map in `builtAB`. -/
noncomputable def fdA : List (String × IndexData) := buildFolderIndexes feA

/-- Folder "A"'s SIFT index entry in `builtAB`. -/
noncomputable def dA : IndexData :=
  { vectors := [rowNormalize (getFeature (bundleOf feA "A/1.png") "sift")]
    imagePaths := ["A/1.png"] }

/-- C7 (witness): the isolation theorem applied to the concrete two-folder
build. -/
theorem c7_index_isolation_witness :
    List.lookup "A" builtAB.folderIndexes = some fdA ∧
    List.lookup "sift" fdA = some dA ∧
    ∀ hit ∈ searchHits dA [1], hit.1 ∈ ["A/1.png"] ∧ hit.1 ∉ ["B/1.png"] := by
  refine ⟨rfl, rfl, ?_⟩
  exact c7_index_isolation [("A", feA), ("B", feB)] ["A", "B"] 0 ⟨[]⟩ "A" "B"
    fdA "sift" dA ["A/1.png"] ["B/1.png"] [1] rfl rfl rfl rfl
    (by decide) (by decide)

end VisualSim

namespace VisualSim

/-! Support lemmas for the extraction invariant behind C4: every
L1-normalized histogram encoding the engine caches has L2 norm well above
1/20. -/

/-- The sum of squares of a cons. -/
theorem sumSq_cons (a : ℝ) (t : Vec) : sumSq (a :: t) = a * a + sumSq t := by
  simp [sumSq, dotl, List.zipWith_cons_cons]

/-- Cauchy-Schwarz for lists: the square of the sum is at most the length
times the sum of squares. -/
theorem sq_sum_le_card_mul_sumSq (v : Vec) : v.sum ^ 2 ≤ v.length * sumSq v := by
  induction v with
  | nil => simp [sumSq, dotl]
  | cons a t ih =>
    have hq : (0 : ℝ) ≤ sumSq t := sumSq_nonneg t
    rw [List.sum_cons, List.length_cons, sumSq_cons]
    push_cast
    rcases Nat.eq_zero_or_pos t.length with h0 | hpos
    · rw [h0] at ih
      push_cast at ih
      have hs2 : t.sum ^ 2 = 0 := le_antisymm (by linarith) (sq_nonneg t.sum)
      have hs0 : t.sum = 0 := (pow_eq_zero_iff two_ne_zero).1 hs2
      rw [h0, hs0]
      push_cast
      nlinarith [hq, sq_nonneg a]
    · have hN : (1 : ℝ) ≤ (t.length : ℝ) := by exact_mod_cast hpos
      nlinarith [ih, hq, sq_nonneg ((t.length : ℝ) * a - t.sum),
        mul_le_mul_of_nonneg_left ih (by linarith : (0 : ℝ) ≤ 1 + (t.length : ℝ)), hN]

end VisualSim

namespace VisualSim

/-- Casting a rational vector preserves the sum of entries. -/
theorem sum_castVec (v : QVec) : (castVec v).sum = ((v.sum : ℚ) : ℝ) := by
  unfold castVec
  rw [show (((v.sum : ℚ)) : ℝ) = (Rat.castHom ℝ) v.sum from rfl, map_list_sum]
  rfl

/-- Pad/truncate always produces exactly `clusters` entries. -/
theorem padTrunc_length (clusters : ℕ) (v : QVec) :
    (padTrunc clusters v).length = clusters := by
  unfold padTrunc
  by_cases hl : v.length < clusters
  · rw [if_pos hl, List.length_append, List.length_replicate]
    omega
  · rw [if_neg hl, List.length_take]
    omega

/-- The histogram fallback always produces exactly `clusters` entries. -/
theorem hist_fallback_length (clusters : ℕ) (hist : QVec) :
    (hist_fallback clusters hist).length = clusters := by
  unfold hist_fallback
  by_cases hs : 0 < (padTrunc clusters hist).sum
  · rw [if_pos hs, List.length_map, padTrunc_length]
  · rw [if_neg hs, List.length_replicate]

/-- A vector of at most 256 entries whose sum is at least 0.9 has L2 norm
at least 1/20 (by Cauchy-Schwarz, its sum of squares is at least
0.81/256 > 1/400). -/
theorem l2norm_ge_of_sum (v : Vec) (hlen : v.length ≤ 256)
    (hs : 9 / 10 ≤ v.sum) :
    1 / 20 ≤ l2norm v := by
  have hcs := sq_sum_le_card_mul_sumSq v
  have hq : (0 : ℝ) ≤ sumSq v := sumSq_nonneg v
  have hlen' : ((v.length : ℕ) : ℝ) ≤ 256 := by exact_mod_cast hlen
  have hlen0 : (0 : ℝ) ≤ ((v.length : ℕ) : ℝ) := Nat.cast_nonneg _
  have hss : (1 : ℝ) / 400 ≤ sumSq v := by nlinarith [hcs, hs, hq, hlen', hlen0]
  unfold l2norm
  rw [Real.le_sqrt (by norm_num) hq]
  nlinarith [hss]

/-- The extraction invariant behind C4's norm hypotheses, for the
zero-keypoint branch: the grayscale-histogram pseudo-descriptor of any image
has L2 norm at least 1/20 whenever the cluster count is positive and at most
its default 256 (the engine only ever shrinks it). -/
theorem hist_fallback_norm_ge (clusters : ℕ) (hist : QVec)
    (hc : 0 < clusters) (hc256 : clusters ≤ 256) :
    1 / 20 ≤ l2norm (castVec (hist_fallback clusters hist)) := by
  refine l2norm_ge_of_sum _ ?_ ?_
  · rw [castVec, List.length_map, hist_fallback_length]
    exact hc256
  · rw [sum_castVec, hist_fallback_sum clusters hist hc]
    norm_num

end VisualSim
